import Mathlib

/-!
WhatsApp Groups Monitor — a verified model of the core pipeline.

A shallow embedding of the core of the `whatsappgroupsmonitor` repository:
the canonical data model (`src/models.py`), the message store
(`src/message_handler.py`), identifier normalization (`src/whatsapp.py`),
the summarization engine and delivery coordinator (`src/summarizer.py`),
the command router (`src/commands.py`) and the configuration record
(`src/config.py`).

Modelling conventions:
* Timestamps (`datetime` values in the source) are modelled as `Nat`
  epoch seconds; "start of the current calendar day"
  (`datetime.now().replace(hour=0, minute=0, second=0, microsecond=0)`)
  becomes `now - now % 86400`, and the `strftime` renderings used in
  transcripts and headers become decimal renderings of those numbers.
  Which messages appear where never depends on the rendering itself.
* Database tables become lists of records held in a `Store`; a SQL
  `SELECT ... WHERE ... ORDER BY timestamp ASC` becomes `List.filter`
  followed by a (stable) insertion sort on the timestamp; `ORDER BY
  created_at DESC LIMIT 1` becomes "last matching record in insertion
  order", since rows are appended in creation order.
* Python string operations are modelled by executable functions on the
  character list of a `String` (`str.lower`, `str.strip`,
  `str.split("@")[0]`, `str.startswith`, `"-" in s`, `str.replace`).
* The Gemini call (`generate_summary`, including its tenacity retry
  decorator) is an oracle `llm : String → String → Except String String`:
  `.ok s` is a generation whose final (post-retry) outcome is the text
  `s`, `.error e` is the exception text reraised after the retry ceiling
  is exhausted.  The outbound Green API send is an oracle
  `send : String → Bool` (`true` = returned without raising).
* Async sessions and commits are elided: every state change the source
  commits is a pure `Store → Store` update, and an exception raised
  before a commit leaves the store unchanged, exactly as in the source.
-/

namespace WGM

/-! ## Python string primitives, modelled on the character list -/

/-- Python `str.lower()` (per character, as `Char.toLower`). -/
def strLower (s : String) : String := ⟨s.data.map Char.toLower⟩

/-- Python `str.strip()`: drop whitespace from both ends. -/
def strTrim (s : String) : String :=
  ⟨((s.data.dropWhile Char.isWhitespace).reverse.dropWhile Char.isWhitespace).reverse⟩

/-- Python `s.split("@")[0]`: the characters before the first `'@'`
(the whole string when there is none). -/
def strBeforeAt (s : String) : String := ⟨s.data.takeWhile (fun c => c ≠ '@')⟩

/-- Python `"-" in s`. -/
def strHasDash (s : String) : Bool := s.data.contains '-'

/-- Python `s.startswith(p)`. -/
def strStartsWithStr (p s : String) : Bool := decide (s.data.take p.data.length = p.data)

/-- Python `s.replace(" ", "").replace("-", "")`. -/
def strRemoveSpaceDash (s : String) : String :=
  ⟨s.data.filter (fun c => decide (c ≠ ' ') && decide (c ≠ '-'))⟩

/-- Python truthiness fallback `opt or dflt` for an optional string:
both `None` and the empty string fall back to the default. -/
def pyStrOr (o : Option String) (dflt : String) : String :=
  match o with
  | some s => if s = "" then dflt else s
  | none => dflt

/-! ## Configuration (`src/config.py`, class `Settings`) -/

/-- The settings fields the core pipeline reads (defaults as in
`src/config.py`).  `minimum_messages_for_summary` is declared in the
source configuration but — as the theorems below establish — never
consulted by `summarize_group`. -/
structure Settings where
  summary_recipient_phone : String := "+972542607800"
  minimum_messages_for_summary : Nat := 15
  max_messages_per_summary : Nat := 1000
deriving DecidableEq

/-- The settings record with every default. -/
def defaultSettings : Settings := {}

/-! ## Data model (`src/models.py`) -/

/-- Model of `models.Group` (the fields the core reads; `created_at`/`updated_at`
are write-only in the source and omitted). -/
structure Group where
  group_jid : String
  group_name : Option String := none
  managed : Bool := true
  last_summary_sync : Nat
deriving DecidableEq

/-- Model of `models.Message` (the derived embedding column is a passive
side-channel and omitted). -/
structure Message where
  message_id : String
  group_jid : String
  sender_jid : String
  sender_name : Option String := none
  content : String
  message_type : String := "text"
  timestamp : Nat
deriving DecidableEq

/-- Model of `models.SummaryLog`; `id` is the database primary key, assigned at
insertion from the counter of the store. -/
structure SummaryLog where
  id : Nat
  group_jid : String
  summary_text : String
  message_count : Nat
  start_time : Nat
  end_time : Nat
  sent_successfully : Bool := false
  error_message : Option String := none
  created_at : Nat
deriving DecidableEq

/-- The three tables plus the primary-key counter for summary logs. -/
structure Store where
  groups : List Group
  messages : List Message
  logs : List SummaryLog
  nextLogId : Nat
deriving DecidableEq

/-- Model of `whatsapp.WhatsAppMessage`, the canonical parsed message record. -/
structure WhatsAppMessage where
  message_id : String
  group_jid : String
  group_name : Option String := none
  sender_jid : String
  sender_name : Option String := none
  content : String
  message_type : String := "text"
  timestamp : Nat
deriving DecidableEq

/-! ## Identifier normalization (`src/whatsapp.py`, `normalize_jid`) -/

/-- Model of `normalize_jid`: keep the part before the at-sign; a hyphen marks a group
identifier (`@g.us`), otherwise a user identifier (`@s.whatsapp.net`). -/
def normalize_jid (jid : String) : String :=
  let base := strBeforeAt jid
  if strHasDash base then base ++ "@g.us" else base ++ "@s.whatsapp.net"

/-! ## Message-window queries (`src/models.py`, methods of `Group`) -/

/-- The optional `exclude_sender_jid` filter.  The source guards with
Python truthiness (`if exclude_sender_jid:`), so `None` and the empty
string both disable the exclusion. -/
def excludeSenderOk (excl : Option String) (m : Message) : Bool :=
  match excl with
  | none => true
  | some s => if s = "" then true else decide (m.sender_jid ≠ s)

/-- The `WHERE` clause shared by both window queries: same group and
timestamp at or after the cutoff, with the optional sender exclusion. -/
def windowPred (gjid : String) (cutoff : Nat) (excl : Option String) (m : Message) : Bool :=
  decide (m.group_jid = gjid) && decide (cutoff ≤ m.timestamp) && excludeSenderOk excl m

/-- The `ORDER BY timestamp ASC` clause, as a stable sort. -/
def sortByTimestamp (msgs : List Message) : List Message :=
  List.insertionSort (fun a b => a.timestamp ≤ b.timestamp) msgs

/-- Model of `Group.get_messages_since_last_summary`: messages of the group with
timestamp `≥ last_summary_sync`, ascending by timestamp. -/
def get_messages_since_last_summary (st : Store) (g : Group) (excl : Option String) :
    List Message :=
  sortByTimestamp (st.messages.filter (windowPred g.group_jid g.last_summary_sync excl))

/-- The day boundary
`datetime.now().replace(hour=0, minute=0, second=0, microsecond=0)`
on epoch seconds. -/
def day_start (now : Nat) : Nat := now - now % 86400

/-- Model of `Group.get_messages_today`: messages of the group with timestamp at
or after the start of the current calendar day, ascending by timestamp. -/
def get_messages_today (st : Store) (g : Group) (now : Nat) (excl : Option String) :
    List Message :=
  sortByTimestamp (st.messages.filter (windowPred g.group_jid (day_start now) excl))

/-! ## Message store (`src/message_handler.py`) -/

/-- Model of `MessageHandler._ensure_group_exists`: create the group when absent;
an existing group is left untouched (for a new group, `last_summary_sync`
defaults to `datetime.now()`, per the `default_factory` of the model). -/
def ensure_group_exists (now : Nat) (st : Store) (group_jid : String)
    (group_name : Option String) : Store :=
  if st.groups.any (fun g => decide (g.group_jid = group_jid)) then st
  else
    { st with
      groups := st.groups ++
        [{ group_jid := group_jid, group_name := group_name, managed := true,
           last_summary_sync := now }] }

/-- Model of `MessageHandler._save_message`: look up by external message
identifier; a duplicate is a silent no-op, otherwise ensure the group
and insert the message row. -/
def save_message (now : Nat) (st : Store) (wa : WhatsAppMessage) : Store :=
  if st.messages.any (fun m => decide (m.message_id = wa.message_id)) then st
  else
    let st := ensure_group_exists now st wa.group_jid wa.group_name
    { st with
      messages := st.messages ++
        [{ message_id := wa.message_id, group_jid := wa.group_jid,
           sender_jid := wa.sender_jid, sender_name := wa.sender_name,
           content := wa.content, message_type := wa.message_type,
           timestamp := wa.timestamp }] }

/-- The name update of `sync_existing_groups` on the first stored group
matching the identifier (`result.first()`): assign the fetched name
whenever it differs from the stored one. -/
def update_first_group_name : List Group → String → String → List Group
  | [], _, _ => []
  | g :: gs, jid, name =>
    if g.group_jid = jid then
      (if g.group_name ≠ some name then { g with group_name := some name } else g) :: gs
    else g :: update_first_group_name gs jid name

/-- One iteration of the loop in `sync_existing_groups`: skip an empty
identifier, normalize it, create the group when absent, otherwise update
its name when the fetched name differs. -/
def sync_group_step (now : Nat) (st : Store) (gd : String × String) : Store :=
  if gd.1 = "" then st
  else
    let jid := normalize_jid gd.1
    if st.groups.any (fun g => decide (g.group_jid = jid)) then
      { st with groups := update_first_group_name st.groups jid gd.2 }
    else
      { st with
        groups := st.groups ++
          [{ group_jid := jid, group_name := some gd.2, managed := true,
             last_summary_sync := now }] }

/-- Model of `sync_existing_groups`: fold the step over the fetched
`(jid, name)` pairs. -/
def sync_existing_groups (now : Nat) (st : Store) (fetched : List (String × String)) : Store :=
  fetched.foldl (sync_group_step now) st

/-! ## Transcript formatting (`src/utils.py`) -/

/-- The sender column of a transcript line:
`msg.sender_name or msg.sender_jid.split("@")[0]` (Python truthiness:
`None` and `""` both fall back to the identifier stem). -/
def sender_display (m : Message) : String :=
  pyStrOr m.sender_name (strBeforeAt m.sender_jid)

/-- One transcript line, `[timestamp] sender: content` (the `strftime`
timestamp rendering modelled as the decimal epoch value). -/
def format_message_line (m : Message) : String :=
  "[" ++ toString m.timestamp ++ "] " ++ sender_display m ++ ": " ++ m.content

/-- Model of `format_messages_for_summary`: the lines joined by newlines. -/
def format_messages_for_summary (msgs : List Message) : String :=
  String.intercalate "\n" (msgs.map format_message_line)

/-- Model of `format_phone_number`: ensure a leading plus sign, drop spaces and dashes. -/
def format_phone_number (phone : String) : String :=
  strRemoveSpaceDash (if strStartsWithStr "+" phone then phone else "+" ++ phone)

/-! ## Summarization engine (`src/summarizer.py`, `SummaryGenerator`) -/

/-- The Gemini collaborator with its retry policy folded in: the final
outcome of `generate_summary` for a given group name and formatted
transcript — `.ok s` a generated digest, `.error e` the exception
reraised once the retry ceiling is exhausted. -/
def LlmOracle : Type := String → String → Except String String

/-- The record inserted by `session.add(SummaryLog(...))`; the primary
key and `created_at` are filled in at insertion. -/
structure SummaryLogData where
  group_jid : String
  summary_text : String
  message_count : Nat
  start_time : Nat
  end_time : Nat
  sent_successfully : Bool
  error_message : Option String
deriving DecidableEq

/-- Insert a summary-log row: append it with the next primary key and
`created_at := now`. -/
def add_log (now : Nat) (st : Store) (d : SummaryLogData) : Store :=
  { st with
    logs := st.logs ++
      [{ id := st.nextLogId, group_jid := d.group_jid, summary_text := d.summary_text,
         message_count := d.message_count, start_time := d.start_time,
         end_time := d.end_time, sent_successfully := d.sent_successfully,
         error_message := d.error_message, created_at := now }],
    nextLogId := st.nextLogId + 1 }

/-- The window selection of `summarize_group`: the whole current day
when forced (the `sikum` path), otherwise everything since the last
summary of the group; in both branches `exclude_sender_jid=None` is passed. -/
def select_window (st : Store) (g : Group) (force : Bool) (now : Nat) : List Message :=
  if force then get_messages_today st g now none
  else get_messages_since_last_summary st g none

/-- The size cap of `summarize_group`: when the window exceeds the cap,
keep the Python slice `messages[-cap:]` — the last `cap` entries, except
that for `cap = 0` the slice `[-0:]` is the whole list. -/
def truncate_messages (cap : Nat) (msgs : List Message) : List Message :=
  if msgs.length > cap then
    if cap = 0 then msgs else msgs.drop (msgs.length - cap)
  else msgs

/-- Model of `SummaryGenerator.summarize_group`: select the window, return
`false` on an empty window (forced or not) without writing anything,
otherwise cap, format, call the collaborator, and record exactly one
`SummaryLog` row — digest text on success, empty text plus the error
text on final failure.  The returned flag is the per-group success. -/
def summarize_group (s : Settings) (st : Store) (g : Group) (force : Bool)
    (llm : LlmOracle) (now : Nat) : Store × Bool :=
  let messages := select_window st g force now
  if messages.length = 0 then (st, false)
  else
    let messages := truncate_messages s.max_messages_per_summary messages
    let messages_text := format_messages_for_summary messages
    let start_time := (messages.head?.elim 0 (fun m => m.timestamp))
    let end_time := (messages.getLast?.elim 0 (fun m => m.timestamp))
    match llm (pyStrOr g.group_name "group") messages_text with
    | .ok summary =>
      (add_log now st
        { group_jid := g.group_jid, summary_text := summary,
          message_count := messages.length, start_time := start_time,
          end_time := end_time, sent_successfully := false, error_message := none },
       true)
    | .error e =>
      (add_log now st
        { group_jid := g.group_jid, summary_text := "",
          message_count := messages.length, start_time := start_time,
          end_time := end_time, sent_successfully := false, error_message := some e },
       false)

/-! ## Delivery coordinator (`src/summarizer.py`,
`generate_and_send_daily_summaries`) -/

/-- One entry of `summaries_data`. -/
structure SummaryData where
  group_name : Option String
  summary : String
  message_count : Nat
  summary_log_id : Nat
deriving DecidableEq

/-- The per-group fetch after a successful `summarize_group`:
`SELECT ... WHERE group_jid = jid ORDER BY created_at DESC LIMIT 1`,
i.e. the most recently inserted log of the group (rows are appended in
creation order). -/
def latest_log_for (st : Store) (jid : String) : Option SummaryLog :=
  (st.logs.filter (fun l => decide (l.group_jid = jid))).getLast?

/-- One iteration of the per-group loop of
`generate_and_send_daily_summaries`: run `summarize_group`, and when it
succeeded and the fetched log has non-empty text, append it to
`summaries_data`. -/
def run_batch_step (s : Settings) (force : Bool) (llm : LlmOracle) (now : Nat)
    (acc : Store × List SummaryData) (g : Group) : Store × List SummaryData :=
  let r := summarize_group s acc.1 g force llm now
  if r.2 then
    match latest_log_for r.1 g.group_jid with
    | some log =>
      if log.summary_text ≠ "" then
        (r.1, acc.2 ++
          [{ group_name := g.group_name, summary := log.summary_text,
             message_count := log.message_count, summary_log_id := log.id }])
      else (r.1, acc.2)
    | none => (r.1, acc.2)
  else (r.1, acc.2)

/-- The whole per-group loop: fold the step over the managed groups,
collecting the surviving digests. -/
def run_batch (s : Settings) (st : Store) (groups : List Group) (force : Bool)
    (llm : LlmOracle) (now : Nat) : Store × List SummaryData :=
  groups.foldl (run_batch_step s force llm now) (st, [])

/-- The group selection `SELECT ... WHERE Group.managed == True`. -/
def managed_groups (st : Store) : List Group :=
  st.groups.filter (fun g => g.managed)

/-- The `%Y-%m-%d` header date, modelled as the decimal epoch-day index
of `now`. -/
def format_date (now : Nat) : String := toString (now / 86400)

/-- A Python f-string renders `None` as the text `"None"`. -/
def pyStrOfOpt (o : Option String) : String := o.elim "None" id

/-- The separator line, fifty equals signs. -/
def sepLine : String := ⟨List.replicate 50 '='⟩

/-- Model of `SummaryGenerator._format_consolidated_summary`: date header, one
section per digest (group name, message count, digest text), fixed
footer, sections joined by blank lines. -/
def format_consolidated_summary (now : Nat) (data : List SummaryData) : String :=
  let header := "📱 סיכום יומי של קבוצות ווטסאפ - " ++ format_date now ++ "\n"
    ++ sepLine ++ "\n\n"
  let body_parts := data.map (fun d =>
    "📌 *" ++ pyStrOfOpt d.group_name ++ "* (" ++ toString d.message_count
      ++ " הודעות)\n" ++ d.summary ++ "\n")
  let footer := "\n" ++ sepLine ++ "\n" ++ "נוצר על ידי WhatsApp Groups Monitor"
  header ++ String.intercalate "\n\n" body_parts ++ footer

/-- The post-send bookkeeping, executed only after the consolidated send
returned without raising: set `sent_successfully` on every contributing
log (fetched by primary key) and set `last_summary_sync := now` on every
managed group — the loop runs over the managed groups selected at the
start of the batch, and the batch never changes the group table. -/
def mark_sent_and_advance (st : Store) (ids : List Nat) (now : Nat) : Store :=
  { st with
    logs := st.logs.map (fun l =>
      if ids.contains l.id then { l with sent_successfully := true } else l),
    groups := st.groups.map (fun g =>
      if g.managed then { g with last_summary_sync := now } else g) }

/-- Model of `SummaryGenerator.generate_and_send_daily_summaries`: select the
managed groups (empty → report `false`), run the per-group loop, and
when at least one digest survived, send the consolidated message once;
on a confirmed send mark the contributing logs and advance every managed
watermark of every managed group, on a raising send return `false` with no further
state change (the per-group logs were already committed). -/
def generate_and_send_daily_summaries (s : Settings) (st : Store) (force : Bool)
    (llm : LlmOracle) (send : String → Bool) (now : Nat) : Store × Bool :=
  let groups := managed_groups st
  if groups.isEmpty then (st, false)
  else
    let batch := run_batch s st groups force llm now
    if batch.2.isEmpty then (batch.1, false)
    else
      if send (format_consolidated_summary now batch.2) then
        (mark_sent_and_advance batch.1 (batch.2.map (fun d => d.summary_log_id)) now, true)
      else (batch.1, false)

/-! ## Command router (`src/commands.py`, `CommandHandler`) -/

/-- What a matched keyword dispatches to: the summary synonyms all bind
`_handle_sikum_command`, `stats` binds `_handle_stats_command`. -/
inductive CommandAction
  | forcedSummary
  | stats
deriving DecidableEq

/-- The keyword table, in insertion order. -/
def command_table : List (String × CommandAction) :=
  [("sikum", .forcedSummary), ("/summarize", .forcedSummary),
   ("/summary", .forcedSummary), ("summary", .forcedSummary),
   ("summarize", .forcedSummary), ("stats", .stats)]

/-- One keyword test: exact match, or the keyword followed by a space. -/
def keyword_matches (keyword lowered : String) : Bool :=
  decide (lowered = keyword) || strStartsWithStr (keyword ++ " ") lowered

/-- The authorized identifier, normalized once at startup
(`normalize_jid(settings.summary_recipient_phone)`). -/
def authorized_phone (s : Settings) : String := normalize_jid s.summary_recipient_phone

/-- Model of `CommandHandler.process_command`: reject any sender whose normalized
identifier is not the authorized one; otherwise match the stripped,
lowercased text against the table, first hit wins.  `some a` is the
the `True` return of the source (command handled, action `a`), `none` its
`False`. -/
def process_command (authorized : String) (sender_jid : String) (message_text : String) :
    Option CommandAction :=
  if normalize_jid sender_jid ≠ authorized then none
  else
    let message_lower := strLower (strTrim message_text)
    (command_table.find? (fun kv => keyword_matches kv.1 message_lower)).map
      (fun kv => kv.2)

/-- The bound handlers: `_handle_sikum_command` invokes
`generate_and_send_daily_summaries(force=True)`; `_handle_stats_command`
only reads. -/
def handle_command (s : Settings) (a : CommandAction) (st : Store) (llm : LlmOracle)
    (send : String → Bool) (now : Nat) : Store × Bool :=
  match a with
  | .forcedSummary => generate_and_send_daily_summaries s st true llm send now
  | .stats => (st, true)

/-! ## Ingestion entry (`src/message_handler.py`, `process_message`) -/

/-- How one inbound canonical message was disposed of. -/
inductive ProcessOutcome
  | skippedSelf
  | command (a : CommandAction)
  | stored
  | ignored
deriving DecidableEq

/-- Model of `MessageHandler.process_message` after parsing: skip own echoes;
a direct (group-less) message goes to the command router and — command
or not — is never saved (`if wa_message.group_jid:` guards the save);
a group message is saved through `_save_message`. -/
def process_message (s : Settings) (my_jid : String) (now : Nat) (st : Store)
    (wa : WhatsAppMessage) : Store × ProcessOutcome :=
  if wa.sender_jid = my_jid then (st, .skippedSelf)
  else if wa.group_jid = "" then
    match process_command (authorized_phone s) wa.sender_jid wa.content with
    | some a => (st, .command a)
    | none => (st, .ignored)
  else (save_message now st wa, .stored)

/-! ## Concrete instances used by the development -/

/-- A managed group with a known watermark. -/
def ex1Group : Group :=
  { group_jid := "g-1@g.us", group_name := some "G1", managed := true,
    last_summary_sync := 100 }

/-- One message of that group, after the watermark. -/
def ex1Msg : Message :=
  { message_id := "m1", group_jid := "g-1@g.us",
    sender_jid := "111@s.whatsapp.net", sender_name := some "Alice",
    content := "hi", timestamp := 150 }

/-- A store holding exactly that group and message. -/
def ex1Store : Store :=
  { groups := [ex1Group], messages := [ex1Msg], logs := [], nextLogId := 0 }

/-- A collaborator that always generates the digest `"digest"`. -/
def exLlmOk : LlmOracle := fun _ _ => .ok "digest"

/-- A collaborator whose every call fails past the retry ceiling. -/
def exLlmErr : LlmOracle := fun _ _ => .error "boom"

/-- A send boundary that always confirms. -/
def exSendOk : String → Bool := fun _ => true

/-- A send boundary that always raises. -/
def exSendErr : String → Bool := fun _ => false

/-- A canonical inbound group message. -/
def exWa : WhatsAppMessage :=
  { message_id := "m2", group_jid := "g-1@g.us", group_name := some "G1",
    sender_jid := "222@s.whatsapp.net", sender_name := some "Bob",
    content := "hello", timestamp := 160 }

/-- The same external identifier as `exWa` with different content. -/
def exWa2 : WhatsAppMessage :=
  { message_id := "m2", group_jid := "g-1@g.us", group_name := some "G1",
    sender_jid := "333@s.whatsapp.net", sender_name := some "Carol",
    content := "redelivered", timestamp := 170 }

/-- A store whose only group has a known stored name. -/
def ex5Store : Store :=
  { groups := [{ group_jid := "g-5@g.us", group_name := some "Old", managed := true,
                 last_summary_sync := 0 }],
    messages := [], logs := [], nextLogId := 0 }

/-- A managed group without any message. -/
def ex6Group : Group :=
  { group_jid := "g-6@g.us", group_name := some "G6", managed := true,
    last_summary_sync := 0 }

/-- A store with a group and no messages at all (so none today either). -/
def ex6Store : Store :=
  { groups := [ex6Group], messages := [], logs := [], nextLogId := 0 }

/-- First of two messages sharing one timestamp. -/
def ex7MsgA : Message :=
  { message_id := "a", group_jid := "g-1@g.us",
    sender_jid := "111@s.whatsapp.net", sender_name := some "Alice",
    content := "first", timestamp := 150 }

/-- Second of two messages sharing one timestamp. -/
def ex7MsgB : Message :=
  { message_id := "b", group_jid := "g-1@g.us",
    sender_jid := "222@s.whatsapp.net", sender_name := some "Bob",
    content := "second", timestamp := 150 }

/-- Two messages of one group sharing one timestamp. -/
def ex7Store : Store :=
  { groups := [ex1Group], messages := [ex7MsgA, ex7MsgB], logs := [], nextLogId := 0 }

/-- Settings whose transcript cap is one message. -/
def ex8Settings : Settings := { max_messages_per_summary := 1 }

/-- Two messages of one group at distinct timestamps. -/
def ex8Store : Store :=
  { groups := [ex1Group],
    messages :=
      [{ message_id := "a", group_jid := "g-1@g.us",
         sender_jid := "111@s.whatsapp.net", sender_name := some "Alice",
         content := "older", timestamp := 120 },
       { message_id := "b", group_jid := "g-1@g.us",
         sender_jid := "222@s.whatsapp.net", sender_name := some "Bob",
         content := "newer", timestamp := 150 }],
    logs := [], nextLogId := 0 }

/-- A summary log already marked sent in an earlier batch. -/
def ex10Log : SummaryLog :=
  { id := 0, group_jid := "g-1@g.us", summary_text := "yesterday",
    message_count := 3, start_time := 10, end_time := 90,
    sent_successfully := true, error_message := none, created_at := 95 }

/-- The store `ex1Store` with that historical log present. -/
def ex10Store : Store :=
  { groups := [ex1Group], messages := [ex1Msg], logs := [ex10Log], nextLogId := 1 }

/-- A direct `sikum` message from the authorized identifier. -/
def exWaSikum : WhatsAppMessage :=
  { message_id := "d1", group_jid := "",
    sender_jid := "+972542607800@s.whatsapp.net", sender_name := some "Owner",
    content := "sikum", timestamp := 180 }

/-- The same direct `sikum` text from an unauthorized identifier. -/
def exWaSikumStranger : WhatsAppMessage :=
  { message_id := "d2", group_jid := "",
    sender_jid := "123@s.whatsapp.net", sender_name := some "Mallory",
    content := "sikum", timestamp := 181 }

/-! ## Structural lemmas -/

theorem sortByTimestamp_sorted (l : List Message) :
    List.Sorted (fun a b : Message => a.timestamp ≤ b.timestamp) (sortByTimestamp l) := by
  haveI : IsTotal Message (fun a b => a.timestamp ≤ b.timestamp) :=
    ⟨fun a b => Nat.le_total _ _⟩
  haveI : IsTrans Message (fun a b => a.timestamp ≤ b.timestamp) :=
    ⟨fun _ _ _ => Nat.le_trans⟩
  exact List.sorted_insertionSort _ l

theorem sortByTimestamp_perm (l : List Message) : (sortByTimestamp l).Perm l :=
  List.perm_insertionSort _ l

theorem ensure_group_exists_messages (now : Nat) (st : Store) (jid : String)
    (name : Option String) : (ensure_group_exists now st jid name).messages = st.messages := by
  unfold ensure_group_exists
  split <;> rfl

theorem ensure_group_exists_logs (now : Nat) (st : Store) (jid : String)
    (name : Option String) : (ensure_group_exists now st jid name).logs = st.logs := by
  unfold ensure_group_exists
  split <;> rfl

theorem summarize_group_groups (s : Settings) (st : Store) (g : Group) (force : Bool)
    (llm : LlmOracle) (now : Nat) :
    ((summarize_group s st g force llm now).1).groups = st.groups := by
  unfold summarize_group
  dsimp only
  split
  · rfl
  · split <;> rfl

theorem summarize_group_messages (s : Settings) (st : Store) (g : Group) (force : Bool)
    (llm : LlmOracle) (now : Nat) :
    ((summarize_group s st g force llm now).1).messages = st.messages := by
  unfold summarize_group
  dsimp only
  split
  · rfl
  · split <;> rfl

theorem summarize_group_logs (s : Settings) (st : Store) (g : Group) (force : Bool)
    (llm : LlmOracle) (now : Nat) :
    ∃ t, ((summarize_group s st g force llm now).1).logs = st.logs ++ t ∧
      ∀ l ∈ t, l.sent_successfully = false := by
  unfold summarize_group
  dsimp only
  split
  · exact ⟨[], by simp⟩
  · split
    · exact ⟨_, rfl, by intro l hl; simp [add_log] at hl ⊢; simp [hl]⟩
    · exact ⟨_, rfl, by intro l hl; simp [add_log] at hl ⊢; simp [hl]⟩

theorem run_batch_step_store (s : Settings) (force : Bool) (llm : LlmOracle) (now : Nat)
    (acc : Store × List SummaryData) (g : Group) :
    (run_batch_step s force llm now acc g).1 = (summarize_group s acc.1 g force llm now).1 := by
  unfold run_batch_step
  dsimp only
  split
  · split
    · split <;> rfl
    · rfl
  · rfl

theorem run_batch_aux_groups (s : Settings) (force : Bool) (llm : LlmOracle) (now : Nat) :
    ∀ (gs : List Group) (acc : Store × List SummaryData),
      ((gs.foldl (run_batch_step s force llm now) acc).1).groups = acc.1.groups := by
  intro gs
  induction gs with
  | nil => intro acc; rfl
  | cons g gs ih =>
    intro acc
    rw [List.foldl_cons, ih, run_batch_step_store, summarize_group_groups]

theorem run_batch_aux_logs (s : Settings) (force : Bool) (llm : LlmOracle) (now : Nat) :
    ∀ (gs : List Group) (acc : Store × List SummaryData),
      ∃ t, ((gs.foldl (run_batch_step s force llm now) acc).1).logs = acc.1.logs ++ t ∧
        ∀ l ∈ t, l.sent_successfully = false := by
  intro gs
  induction gs with
  | nil => intro acc; exact ⟨[], by simp⟩
  | cons g gs ih =>
    intro acc
    rw [List.foldl_cons]
    obtain ⟨t2, ht2, ht2f⟩ := ih (run_batch_step s force llm now acc g)
    obtain ⟨t1, ht1, ht1f⟩ := summarize_group_logs s acc.1 g force llm now
    refine ⟨t1 ++ t2, ?_, ?_⟩
    · rw [ht2, run_batch_step_store, ht1, List.append_assoc]
    · intro l hl
      rcases List.mem_append.mp hl with h | h
      · exact ht1f l h
      · exact ht2f l h

theorem run_batch_groups (s : Settings) (st : Store) (groups : List Group) (force : Bool)
    (llm : LlmOracle) (now : Nat) :
    ((run_batch s st groups force llm now).1).groups = st.groups :=
  run_batch_aux_groups s force llm now groups (st, [])

theorem run_batch_logs (s : Settings) (st : Store) (groups : List Group) (force : Bool)
    (llm : LlmOracle) (now : Nat) :
    ∃ t, ((run_batch s st groups force llm now).1).logs = st.logs ++ t ∧
      ∀ l ∈ t, l.sent_successfully = false :=
  run_batch_aux_logs s force llm now groups (st, [])

theorem mark_sent_logs (st : Store) (ids : List Nat) (now : Nat) :
    ∀ l ∈ (mark_sent_and_advance st ids now).logs,
      l.id ∈ ids → l.sent_successfully = true := by
  intro l hl hid
  simp only [mark_sent_and_advance, List.mem_map] at hl
  obtain ⟨l0, -, rfl⟩ := hl
  by_cases h : ids.contains l0.id = true
  · rw [if_pos h]
  · rw [if_neg h] at hid ⊢
    exact absurd (List.elem_iff.mpr hid) h

theorem mark_sent_groups (st : Store) (ids : List Nat) (now : Nat) :
    ∀ g ∈ (mark_sent_and_advance st ids now).groups,
      g.managed = true → g.last_summary_sync = now := by
  intro g hg _hm
  simp only [mark_sent_and_advance, List.mem_map] at hg
  obtain ⟨g0, _, rfl⟩ := hg
  by_cases h : g0.managed
  · simp [h]
  · rw [if_neg h] at _hm ⊢
    exact absurd _hm (by simpa using h)

theorem select_window_sorted (st : Store) (g : Group) (force : Bool) (now : Nat) :
    List.Sorted (fun a b : Message => a.timestamp ≤ b.timestamp)
      (select_window st g force now) := by
  unfold select_window
  split
  · exact sortByTimestamp_sorted _
  · exact sortByTimestamp_sorted _

/-! ## The claims -/

/-- C1 (code bug evidence): the configured minimum-message threshold
(`settings.minimum_messages_for_summary`, default 15) is declared but
never consulted by `summarize_group`.  On a store whose group has a
single eligible message — strictly below the threshold — a non-forced
run does not skip: it reports success and writes a SummaryLog row. -/
theorem below_threshold_run_still_writes_log :
    (get_messages_since_last_summary ex1Store ex1Group none).length = 1 ∧
    (get_messages_since_last_summary ex1Store ex1Group none).length
        < defaultSettings.minimum_messages_for_summary ∧
    (summarize_group defaultSettings ex1Store ex1Group false exLlmOk 200).2 = true ∧
    ((summarize_group defaultSettings ex1Store ex1Group false exLlmOk 200).1).logs.length
        = 1 := by
  decide

/-- C6: a forced (on-demand) run over the day window that finds zero
eligible messages terminates as skipped: it returns failure-without-error
and the store — in particular the SummaryLog table — is untouched. -/
theorem forced_run_zero_messages_skips (s : Settings) (st : Store) (g : Group)
    (llm : LlmOracle) (now : Nat)
    (h : get_messages_today st g now none = []) :
    summarize_group s st g true llm now = (st, false) := by
  unfold summarize_group select_window
  simp [h]

theorem forced_run_zero_messages_skips_witness :
    get_messages_today ex6Store ex6Group 200 none = [] ∧
    summarize_group defaultSettings ex6Store ex6Group true exLlmOk 200 = (ex6Store, false) :=
  ⟨by decide,
   forced_run_zero_messages_skips defaultSettings ex6Store ex6Group exLlmOk 200 (by decide)⟩

/-- C3: saving a canonical message whose external identifier is already
stored is a silent no-op: starting from any store satisfying the
uniqueness invariant (at most one row per identifier, the unique
constraint of the database), after a save exactly one stored Message carries the
identifier, and saving any message with the same identifier again
returns without error and changes nothing. -/
theorem save_message_idempotent (now now2 : Nat) (st : Store) (wa wa2 : WhatsAppMessage)
    (hid : wa2.message_id = wa.message_id)
    (huniq : st.messages.countP (fun m => decide (m.message_id = wa.message_id)) ≤ 1) :
    ((save_message now st wa).messages.countP
        (fun m => decide (m.message_id = wa.message_id))) = 1 ∧
    save_message now2 (save_message now st wa) wa2 = save_message now st wa := by
  by_cases h : st.messages.any (fun m => decide (m.message_id = wa.message_id)) = true
  · have hsave : save_message now st wa = st := by
      unfold save_message
      rw [if_pos h]
    have hpos : 0 < st.messages.countP (fun m => decide (m.message_id = wa.message_id)) := by
      obtain ⟨m, hm, hp⟩ := List.any_eq_true.mp h
      exact List.countP_pos_iff.mpr ⟨m, hm, hp⟩
    refine ⟨?_, ?_⟩
    · rw [hsave]
      omega
    · rw [hsave]
      unfold save_message
      rw [if_pos (by simpa only [hid] using h)]
  · have hnone : st.messages.countP (fun m => decide (m.message_id = wa.message_id)) = 0 := by
      refine List.countP_eq_zero.mpr ?_
      intro m hm
      exact fun hp => (List.any_eq_false.mp (Bool.not_eq_true _ ▸ h) m hm) hp
    have hmsgs : (save_message now st wa).messages =
        st.messages ++
          [{ message_id := wa.message_id, group_jid := wa.group_jid,
             sender_jid := wa.sender_jid, sender_name := wa.sender_name,
             content := wa.content, message_type := wa.message_type,
             timestamp := wa.timestamp }] := by
      unfold save_message
      rw [if_neg h]
      simp only [ensure_group_exists_messages]
    refine ⟨?_, ?_⟩
    · rw [hmsgs, List.countP_append, hnone]
      simp
    · have hcond : ((save_message now st wa).messages.any
          (fun m => decide (m.message_id = wa2.message_id))) = true := by
        rw [hmsgs]
        refine List.any_eq_true.mpr ⟨_, List.mem_append_right _ (List.mem_singleton_self _), ?_⟩
        simp [hid]
      generalize hst1 : save_message now st wa = st1 at hcond ⊢
      unfold save_message
      rw [if_pos hcond]

theorem save_message_idempotent_witness :
    exWa2.message_id = exWa.message_id ∧
    ex1Store.messages.countP (fun m => decide (m.message_id = exWa.message_id)) ≤ 1 ∧
    ((save_message 160 ex1Store exWa).messages.countP
        (fun m => decide (m.message_id = exWa.message_id))) = 1 ∧
    save_message 170 (save_message 160 ex1Store exWa) exWa2 = save_message 160 ex1Store exWa :=
  ⟨rfl, by decide,
   (save_message_idempotent 160 170 ex1Store exWa exWa2 rfl (by decide)).1,
   (save_message_idempotent 160 170 ex1Store exWa exWa2 rfl (by decide)).2⟩

/-- C4: when the selected window is non-empty and the final (post-retry)
outcome of the collaborator is an error, `summarize_group` reports
failure, appends exactly one SummaryLog row — empty digest text, the
error text as the non-null error description — and the batch loop
simply continues with the remaining groups from the updated store
instead of aborting. -/
theorem failed_generation_writes_error_log (s : Settings) (st : Store) (g : Group)
    (force : Bool) (llm : LlmOracle) (now : Nat) (e : String)
    (hw : select_window st g force now ≠ [])
    (hllm : llm (pyStrOr g.group_name "group")
        (format_messages_for_summary
          (truncate_messages s.max_messages_per_summary (select_window st g force now)))
        = .error e) :
    (summarize_group s st g force llm now).2 = false ∧
    ((summarize_group s st g force llm now).1).logs =
      st.logs ++
        [{ id := st.nextLogId, group_jid := g.group_jid, summary_text := "",
           message_count := (truncate_messages s.max_messages_per_summary
             (select_window st g force now)).length,
           start_time := (truncate_messages s.max_messages_per_summary
             (select_window st g force now)).head?.elim 0 (fun m => m.timestamp),
           end_time := (truncate_messages s.max_messages_per_summary
             (select_window st g force now)).getLast?.elim 0 (fun m => m.timestamp),
           sent_successfully := false, error_message := some e, created_at := now }] ∧
    (∀ gs : List Group,
      run_batch s st (g :: gs) force llm now =
        run_batch s (summarize_group s st g force llm now).1 gs force llm now) := by
  have hmain : summarize_group s st g force llm now =
      (add_log now st
        { group_jid := g.group_jid, summary_text := "",
          message_count := (truncate_messages s.max_messages_per_summary
            (select_window st g force now)).length,
          start_time := (truncate_messages s.max_messages_per_summary
            (select_window st g force now)).head?.elim 0 (fun m => m.timestamp),
          end_time := (truncate_messages s.max_messages_per_summary
            (select_window st g force now)).getLast?.elim 0 (fun m => m.timestamp),
          sent_successfully := false, error_message := some e }, false) := by
    unfold summarize_group
    dsimp only
    rw [if_neg (by simpa [List.length_eq_zero] using hw), hllm]
  refine ⟨by rw [hmain], by rw [hmain]; rfl, ?_⟩
  intro gs
  show (g :: gs).foldl (run_batch_step s force llm now) (st, []) = _
  rw [List.foldl_cons]
  have hstep : run_batch_step s force llm now (st, []) g =
      ((summarize_group s st g force llm now).1, []) := by
    unfold run_batch_step
    rw [hmain]
    rfl
  rw [hstep, hmain]
  rfl

theorem failed_generation_writes_error_log_witness :
    select_window ex1Store ex1Group false 200 ≠ [] ∧
    (summarize_group defaultSettings ex1Store ex1Group false exLlmErr 200).2 = false ∧
    ((summarize_group defaultSettings ex1Store ex1Group false exLlmErr 200).1).logs =
      [{ id := 0, group_jid := "g-1@g.us", summary_text := "",
         message_count := 1, start_time := 150, end_time := 150,
         sent_successfully := false, error_message := some "boom", created_at := 200 }] :=
  ⟨by decide,
   (failed_generation_writes_error_log defaultSettings ex1Store ex1Group false exLlmErr 200
      "boom" (by decide) rfl).1,
   by
    have h := (failed_generation_writes_error_log defaultSettings ex1Store ex1Group false
      exLlmErr 200 "boom" (by decide) rfl).2.1
    rw [h]
    decide⟩

/-- C5 counterexample: the store holds the group `g-5@g.us` whose stored
name is the known (non-empty) `"Old"`; ensuring the same group with the
differing supplied name `"New"` leaves the store — and so its stored
name — completely unchanged, contradicting the claim that the name is
updated to the supplied one when it differs. -/
theorem ensure_group_keeps_stale_name :
    ex5Store.groups.map (fun g => (g.group_jid, g.group_name))
      = [("g-5@g.us", some "Old")] ∧
    (some "New" : Option String) ≠ some "Old" ∧
    ensure_group_exists 300 ex5Store "g-5@g.us" (some "New") = ex5Store := by
  decide

/-- C5 amended: `_ensure_group_exists` creates the group (with the
supplied name) when absent and leaves an existing group entirely
unchanged — it never updates a name; the name updates happen only in
`sync_existing_groups`, which assigns the fetched name to the first
stored group with that identifier whenever it differs from the stored
one — including overwriting a known stored name with an empty fetched
name. -/
theorem ensure_and_sync_group_names :
    (∀ (now : Nat) (st : Store) (jid : String) (name : Option String),
      st.groups.any (fun g => decide (g.group_jid = jid)) = true →
      ensure_group_exists now st jid name = st) ∧
    (∀ (now : Nat) (st : Store) (jid : String) (name : Option String),
      st.groups.any (fun g => decide (g.group_jid = jid)) = false →
      (ensure_group_exists now st jid name).groups =
        st.groups ++ [{ group_jid := jid, group_name := name, managed := true,
                        last_summary_sync := now }]) ∧
    (∀ (now : Nat) (g : Group) (gs : List Group) (msgs : List Message)
        (logs : List SummaryLog) (n : Nat) (raw name : String),
      raw ≠ "" → g.group_jid = normalize_jid raw → g.group_name ≠ some name →
      (sync_group_step now ⟨g :: gs, msgs, logs, n⟩ (raw, name)).groups =
        { g with group_name := some name } :: gs) := by
  refine ⟨?_, ?_, ?_⟩
  · intro now st jid name h
    unfold ensure_group_exists
    rw [if_pos h]
  · intro now st jid name h
    unfold ensure_group_exists
    rw [if_neg (by simp [h])]
  · intro now g gs msgs logs n raw name hraw hjid hname
    unfold sync_group_step
    rw [if_neg hraw]
    dsimp only
    rw [if_pos]
    · unfold update_first_group_name
      rw [if_pos hjid, if_pos hname]
    · exact List.any_eq_true.mpr ⟨g, List.mem_cons_self _ _, by simp [hjid]⟩

theorem ensure_and_sync_group_names_witness :
    ex5Store.groups.any (fun g => decide (g.group_jid = "g-5@g.us")) = true ∧
    ensure_group_exists 300 ex5Store "g-5@g.us" (some "New") = ex5Store ∧
    ex6Store.groups.any (fun g => decide (g.group_jid = "g-9@g.us")) = false ∧
    (ensure_group_exists 300 ex6Store "g-9@g.us" (some "Nine")).groups =
      ex6Store.groups ++ [{ group_jid := "g-9@g.us", group_name := some "Nine",
                            managed := true, last_summary_sync := 300 }] ∧
    (sync_group_step 300 ⟨[⟨"g-5@g.us", some "Old", true, 0⟩], [], [], 0⟩
        ("g-5@g.us", "")).groups = [⟨"g-5@g.us", some "", true, 0⟩] :=
  ⟨by decide,
   ensure_and_sync_group_names.1 300 ex5Store "g-5@g.us" (some "New") (by decide),
   by decide,
   ensure_and_sync_group_names.2.1 300 ex6Store "g-9@g.us" (some "Nine") (by decide),
   ensure_and_sync_group_names.2.2 300 ⟨"g-5@g.us", some "Old", true, 0⟩ [] [] [] 0
     "g-5@g.us" "" (by decide) (by decide) (by decide)⟩

/-- C7 counterexample: with two stored messages of the group sharing
timestamp 150, both at or after the watermark, the window query returns
both — so its output is not in strictly ascending timestamp order. -/
theorem messages_window_not_strictly_ascending :
    (get_messages_since_last_summary ex7Store ex1Group none).map (fun m => m.timestamp)
      = [150, 150] ∧
    ¬ List.Pairwise (fun a b : Message => a.timestamp < b.timestamp)
        (get_messages_since_last_summary ex7Store ex1Group none) := by
  decide

/-- C7 amended: the window query returns exactly the stored messages of
the group with timestamp at or after the watermark of the group (as a
permutation of that filter, so with the right multiplicities), in
ascending — non-decreasing, not necessarily strict — timestamp order,
and when a non-empty sender exclusion is supplied no returned message is
from that sender. -/
theorem messages_window_spec (st : Store) (g : Group) (excl : Option String) :
    (get_messages_since_last_summary st g excl).Perm
      (st.messages.filter (windowPred g.group_jid g.last_summary_sync excl)) ∧
    List.Sorted (fun a b : Message => a.timestamp ≤ b.timestamp)
      (get_messages_since_last_summary st g excl) ∧
    (∀ m, m ∈ get_messages_since_last_summary st g excl ↔
      (m ∈ st.messages ∧ m.group_jid = g.group_jid ∧
        g.last_summary_sync ≤ m.timestamp ∧ excludeSenderOk excl m = true)) ∧
    (∀ sj, excl = some sj → sj ≠ "" →
      ∀ m ∈ get_messages_since_last_summary st g excl, m.sender_jid ≠ sj) := by
  have hperm : (get_messages_since_last_summary st g excl).Perm
      (st.messages.filter (windowPred g.group_jid g.last_summary_sync excl)) :=
    sortByTimestamp_perm _
  have hmem : ∀ m, m ∈ get_messages_since_last_summary st g excl ↔
      (m ∈ st.messages ∧ m.group_jid = g.group_jid ∧
        g.last_summary_sync ≤ m.timestamp ∧ excludeSenderOk excl m = true) := by
    intro m
    rw [hperm.mem_iff, List.mem_filter]
    unfold windowPred
    simp [and_assoc]
  refine ⟨hperm, sortByTimestamp_sorted _, hmem, ?_⟩
  intro sj hsj hne m hm
  have hexcl := ((hmem m).mp hm).2.2.2
  rw [hsj] at hexcl
  simpa [excludeSenderOk, hne] using hexcl

theorem messages_window_spec_witness :
    ex7MsgA ∈ get_messages_since_last_summary ex7Store ex1Group
      (some "222@s.whatsapp.net") ∧
    (some "222@s.whatsapp.net" : Option String) = some "222@s.whatsapp.net" ∧
    "222@s.whatsapp.net" ≠ "" ∧
    ex7MsgA.sender_jid ≠ "222@s.whatsapp.net" :=
  ⟨by decide, rfl, by decide,
   (messages_window_spec ex7Store ex1Group (some "222@s.whatsapp.net")).2.2.2
     "222@s.whatsapp.net" rfl (by decide) ex7MsgA (by decide)⟩

/-- C8: when the selected window holds more messages than the
(positive) configured cap N, the transcript handed to the collaborator
holds exactly the last N entries of the ascending window — the most
recent N by timestamp, every dropped message being no newer than every
kept one — and the whole outcome of `summarize_group` depends on the
collaborator only through that truncated transcript. -/
theorem cap_keeps_most_recent_messages (s : Settings) (st : Store) (g : Group)
    (force : Bool) (now : Nat)
    (hcap : 0 < s.max_messages_per_summary)
    (hlen : s.max_messages_per_summary < (select_window st g force now).length) :
    truncate_messages s.max_messages_per_summary (select_window st g force now) =
      (select_window st g force now).drop
        ((select_window st g force now).length - s.max_messages_per_summary) ∧
    (truncate_messages s.max_messages_per_summary (select_window st g force now)).length
      = s.max_messages_per_summary ∧
    (∀ x ∈ (select_window st g force now).take
        ((select_window st g force now).length - s.max_messages_per_summary),
      ∀ y ∈ truncate_messages s.max_messages_per_summary (select_window st g force now),
        x.timestamp ≤ y.timestamp) ∧
    (∀ llm1 llm2 : LlmOracle,
      llm1 (pyStrOr g.group_name "group")
          (format_messages_for_summary
            (truncate_messages s.max_messages_per_summary (select_window st g force now)))
        = llm2 (pyStrOr g.group_name "group")
          (format_messages_for_summary
            (truncate_messages s.max_messages_per_summary (select_window st g force now))) →
      summarize_group s st g force llm1 now = summarize_group s st g force llm2 now) := by
  have htr : truncate_messages s.max_messages_per_summary (select_window st g force now) =
      (select_window st g force now).drop
        ((select_window st g force now).length - s.max_messages_per_summary) := by
    unfold truncate_messages
    rw [if_pos hlen, if_neg (Nat.pos_iff_ne_zero.mp hcap)]
  refine ⟨htr, ?_, ?_, ?_⟩
  · rw [htr, List.length_drop]
    omega
  · intro x hx y hy
    rw [htr] at hy
    have hsorted := select_window_sorted st g force now
    rw [← List.take_append_drop
      ((select_window st g force now).length - s.max_messages_per_summary)
      (select_window st g force now)] at hsorted
    exact (List.pairwise_append.mp hsorted).2.2 x hx y hy
  · intro llm1 llm2 hagree
    unfold summarize_group
    dsimp only
    have hnz : ¬((select_window st g force now).length = 0) := by omega
    rw [if_neg hnz, if_neg hnz, hagree]

theorem cap_keeps_most_recent_messages_witness :
    0 < ex8Settings.max_messages_per_summary ∧
    ex8Settings.max_messages_per_summary < (select_window ex8Store ex1Group false 200).length ∧
    truncate_messages ex8Settings.max_messages_per_summary
        (select_window ex8Store ex1Group false 200) =
      (select_window ex8Store ex1Group false 200).drop
        ((select_window ex8Store ex1Group false 200).length
          - ex8Settings.max_messages_per_summary) ∧
    (truncate_messages ex8Settings.max_messages_per_summary
        (select_window ex8Store ex1Group false 200)).length
      = ex8Settings.max_messages_per_summary :=
  ⟨by decide, by decide,
   (cap_keeps_most_recent_messages ex8Settings ex8Store ex1Group false 200
      (by decide) (by decide)).1,
   (cap_keeps_most_recent_messages ex8Settings ex8Store ex1Group false 200
      (by decide) (by decide)).2.1⟩

/-- C9: a direct (group-less) message whose stripped, lowercased text is
`sikum`, from a sender other than the bot itself, is dispatched as a
command exactly when the normalized identifier of the sender equals the
authorized one — and the bound handler is forced summarization,
`generate_and_send_daily_summaries` with `force = true`; from any other
sender the message is not handled as a command and the store is left
unchanged (direct messages are never persisted). -/
theorem sikum_direct_message_dispatch (s : Settings) (my_jid : String) (now : Nat)
    (st : Store) (wa : WhatsAppMessage)
    (hdirect : wa.group_jid = "") (hself : wa.sender_jid ≠ my_jid)
    (htext : strLower (strTrim wa.content) = "sikum") :
    (normalize_jid wa.sender_jid = authorized_phone s →
      process_message s my_jid now st wa = (st, .command .forcedSummary) ∧
      (∀ (llm : LlmOracle) (send : String → Bool),
        handle_command s .forcedSummary st llm send now =
          generate_and_send_daily_summaries s st true llm send now)) ∧
    (normalize_jid wa.sender_jid ≠ authorized_phone s →
      process_message s my_jid now st wa = (st, .ignored)) := by
  constructor
  · intro hauth
    constructor
    · unfold process_message
      rw [if_neg hself, if_pos hdirect]
      have hcmd : process_command (authorized_phone s) wa.sender_jid wa.content
          = some .forcedSummary := by
        unfold process_command
        rw [if_neg (by simpa using hauth)]
        dsimp only
        rw [htext]
        rfl
      rw [hcmd]
    · intro llm send
      rfl
  · intro hauth
    unfold process_message
    rw [if_neg hself, if_pos hdirect]
    have hcmd : process_command (authorized_phone s) wa.sender_jid wa.content = none := by
      unfold process_command
      rw [if_pos hauth]
    rw [hcmd]

theorem sikum_direct_message_dispatch_witness :
    exWaSikum.group_jid = "" ∧
    exWaSikum.sender_jid ≠ "bot@s.whatsapp.net" ∧
    strLower (strTrim exWaSikum.content) = "sikum" ∧
    normalize_jid exWaSikum.sender_jid = authorized_phone defaultSettings ∧
    process_message defaultSettings "bot@s.whatsapp.net" 400 ex1Store exWaSikum
      = (ex1Store, .command .forcedSummary) ∧
    normalize_jid exWaSikumStranger.sender_jid ≠ authorized_phone defaultSettings ∧
    process_message defaultSettings "bot@s.whatsapp.net" 400 ex1Store exWaSikumStranger
      = (ex1Store, .ignored) :=
  ⟨rfl, by decide, by decide, by decide,
   ((sikum_direct_message_dispatch defaultSettings "bot@s.whatsapp.net" 400 ex1Store
      exWaSikum rfl (by decide) (by decide)).1 (by decide)).1,
   by decide,
   (sikum_direct_message_dispatch defaultSettings "bot@s.whatsapp.net" 400 ex1Store
      exWaSikumStranger rfl (by decide) (by decide)).2 (by decide)⟩

theorem generate_result_cases (s : Settings) (st : Store) (force : Bool)
    (llm : LlmOracle) (send : String → Bool) (now : Nat) :
    generate_and_send_daily_summaries s st force llm send now = (st, false) ∨
    generate_and_send_daily_summaries s st force llm send now =
      ((run_batch s st (managed_groups st) force llm now).1, false) ∨
    (send (format_consolidated_summary now
        (run_batch s st (managed_groups st) force llm now).2) = true ∧
     generate_and_send_daily_summaries s st force llm send now =
       (mark_sent_and_advance (run_batch s st (managed_groups st) force llm now).1
         ((run_batch s st (managed_groups st) force llm now).2.map
           (fun d => d.summary_log_id)) now, true)) := by
  unfold generate_and_send_daily_summaries
  dsimp only
  split
  · exact Or.inl rfl
  · split
    · exact Or.inr (Or.inl rfl)
    · split
      · next h => exact Or.inr (Or.inr ⟨h, rfl⟩)
      · exact Or.inr (Or.inl rfl)

/-- C2: the batch delivery is atomic.  With at least one surviving
digest, a confirmed consolidated send yields exactly the post-send
bookkeeping state: every log whose primary key contributed to the batch
is marked `sent_successfully`, and the `last_summary_sync` watermark of
every managed group is advanced to `now` — including groups
that contributed no digest.  A failed send returns the batch store
unchanged: the group table (hence every watermark) is exactly the
pre-batch one, and no log has its sent flag set (any log is either a
pre-batch row or has `sent_successfully = false`). -/
theorem consolidated_send_atomicity (s : Settings) (st : Store) (force : Bool)
    (llm : LlmOracle) (send : String → Bool) (now : Nat)
    (hne : (run_batch s st (managed_groups st) force llm now).2 ≠ []) :
    (send (format_consolidated_summary now
        (run_batch s st (managed_groups st) force llm now).2) = true →
      generate_and_send_daily_summaries s st force llm send now =
        (mark_sent_and_advance (run_batch s st (managed_groups st) force llm now).1
          ((run_batch s st (managed_groups st) force llm now).2.map
            (fun d => d.summary_log_id)) now, true) ∧
      (∀ l ∈ ((generate_and_send_daily_summaries s st force llm send now).1).logs,
        l.id ∈ (run_batch s st (managed_groups st) force llm now).2.map
          (fun d => d.summary_log_id) → l.sent_successfully = true) ∧
      (∀ g ∈ ((generate_and_send_daily_summaries s st force llm send now).1).groups,
        g.managed = true → g.last_summary_sync = now)) ∧
    (send (format_consolidated_summary now
        (run_batch s st (managed_groups st) force llm now).2) = false →
      generate_and_send_daily_summaries s st force llm send now =
        ((run_batch s st (managed_groups st) force llm now).1, false) ∧
      ((run_batch s st (managed_groups st) force llm now).1).groups = st.groups ∧
      (∀ l ∈ ((run_batch s st (managed_groups st) force llm now).1).logs,
        l ∈ st.logs ∨ l.sent_successfully = false)) := by
  have hg : (managed_groups st).isEmpty = false := by
    refine List.isEmpty_eq_false.mpr ?_
    intro h0
    apply hne
    rw [h0]
    rfl
  have hb : ((run_batch s st (managed_groups st) force llm now).2).isEmpty = false :=
    List.isEmpty_eq_false.mpr hne
  constructor
  · intro hsend
    have hres : generate_and_send_daily_summaries s st force llm send now =
        (mark_sent_and_advance (run_batch s st (managed_groups st) force llm now).1
          ((run_batch s st (managed_groups st) force llm now).2.map
            (fun d => d.summary_log_id)) now, true) := by
      unfold generate_and_send_daily_summaries
      dsimp only
      rw [hg, hb, if_neg (by simp), if_neg (by simp), if_pos hsend]
    refine ⟨hres, ?_, ?_⟩
    · intro l hl
      rw [hres] at hl
      exact mark_sent_logs _ _ _ l hl
    · intro g hg2 hm
      rw [hres] at hg2
      exact mark_sent_groups _ _ _ g hg2 hm
  · intro hsend
    have hres : generate_and_send_daily_summaries s st force llm send now =
        ((run_batch s st (managed_groups st) force llm now).1, false) := by
      unfold generate_and_send_daily_summaries
      dsimp only
      rw [hg, hb, if_neg (by simp), if_neg (by simp), if_neg (by simp [hsend])]
    refine ⟨hres, run_batch_groups s st (managed_groups st) force llm now, ?_⟩
    intro l hl
    obtain ⟨t, ht, htf⟩ := run_batch_logs s st (managed_groups st) force llm now
    rw [ht] at hl
    rcases List.mem_append.mp hl with h | h
    · exact Or.inl h
    · exact Or.inr (htf l h)

theorem consolidated_send_atomicity_witness :
    (run_batch defaultSettings ex1Store (managed_groups ex1Store) false exLlmOk 200).2 ≠ [] ∧
    generate_and_send_daily_summaries defaultSettings ex1Store false exLlmOk exSendOk 200 =
      (mark_sent_and_advance
        (run_batch defaultSettings ex1Store (managed_groups ex1Store) false exLlmOk 200).1
        ((run_batch defaultSettings ex1Store (managed_groups ex1Store) false exLlmOk
          200).2.map (fun d => d.summary_log_id)) 200, true) ∧
    generate_and_send_daily_summaries defaultSettings ex1Store false exLlmOk exSendErr 200 =
      ((run_batch defaultSettings ex1Store (managed_groups ex1Store) false exLlmOk 200).1,
        false) :=
  ⟨by decide,
   ((consolidated_send_atomicity defaultSettings ex1Store false exLlmOk exSendOk 200
      (by decide)).1 rfl).1,
   ((consolidated_send_atomicity defaultSettings ex1Store false exLlmOk exSendErr 200
      (by decide)).2 rfl).1⟩

/-- C10: a SummaryLog row is always created with
`sent_successfully = false` — on both the success and the failure path
of `summarize_group` (any log in the post-state is a pre-existing row or
carries a false flag) — and the flag becomes true only on the
confirmed-send branch of the batch: whenever the batch reports failure, every log
with the flag set was already present (with the flag) before the batch. -/
theorem sent_flag_only_after_confirmed_send :
    (∀ (s : Settings) (st : Store) (g : Group) (force : Bool) (llm : LlmOracle) (now : Nat),
      ∀ l ∈ ((summarize_group s st g force llm now).1).logs,
        l ∈ st.logs ∨ l.sent_successfully = false) ∧
    (∀ (s : Settings) (st : Store) (force : Bool) (llm : LlmOracle)
        (send : String → Bool) (now : Nat),
      (generate_and_send_daily_summaries s st force llm send now).2 = false →
      ∀ l ∈ ((generate_and_send_daily_summaries s st force llm send now).1).logs,
        l.sent_successfully = true → l ∈ st.logs) := by
  constructor
  · intro s st g force llm now l hl
    obtain ⟨t, ht, htf⟩ := summarize_group_logs s st g force llm now
    rw [ht] at hl
    rcases List.mem_append.mp hl with h | h
    · exact Or.inl h
    · exact Or.inr (htf l h)
  · intro s st force llm send now hfail l hl hsent
    rcases generate_result_cases s st force llm send now with hres | hres | ⟨_, hres⟩
    · rw [hres] at hl
      exact hl
    · rw [hres] at hl
      obtain ⟨t, ht, htf⟩ := run_batch_logs s st (managed_groups st) force llm now
      rw [ht] at hl
      rcases List.mem_append.mp hl with h | h
      · exact h
      · exact absurd hsent (by simp [htf l h])
    · rw [hres] at hfail
      exact absurd hfail (by simp)

theorem sent_flag_only_after_confirmed_send_witness :
    ({ id := 0, group_jid := "g-1@g.us", summary_text := "digest", message_count := 1,
       start_time := 150, end_time := 150, sent_successfully := false,
       error_message := none, created_at := 200 } : SummaryLog)
      ∈ ((summarize_group defaultSettings ex1Store ex1Group false exLlmOk 200).1).logs ∧
    (({ id := 0, group_jid := "g-1@g.us", summary_text := "digest", message_count := 1,
        start_time := 150, end_time := 150, sent_successfully := false,
        error_message := none, created_at := 200 } : SummaryLog) ∈ ex1Store.logs ∨
      ({ id := 0, group_jid := "g-1@g.us", summary_text := "digest", message_count := 1,
         start_time := 150, end_time := 150, sent_successfully := false,
         error_message := none, created_at := 200 } : SummaryLog).sent_successfully
        = false) ∧
    (generate_and_send_daily_summaries defaultSettings ex10Store false exLlmOk exSendErr
      200).2 = false ∧
    ex10Log ∈ ((generate_and_send_daily_summaries defaultSettings ex10Store false exLlmOk
      exSendErr 200).1).logs ∧
    ex10Log.sent_successfully = true ∧
    ex10Log ∈ ex10Store.logs :=
  ⟨by decide,
   sent_flag_only_after_confirmed_send.1 defaultSettings ex1Store ex1Group false exLlmOk 200
     _ (by decide),
   by decide, by decide, rfl,
   sent_flag_only_after_confirmed_send.2 defaultSettings ex10Store false exLlmOk exSendErr
     200 (by decide) ex10Log (by decide) rfl⟩

end WGM
